import Mathlib

/-!
Shallow embedding of `src/components/plot-container.js` (kepler.gl export
snapshot orchestrator) and proofs of the specification's claims about it.

JavaScript numbers are modelled by `ℚ`; possibly-absent (undefined) values by
`Option`; the JS falsiness of `0` is modelled explicitly where the source
relies on it (`x || d`, `if (imageSize.scale)`).
-/

namespace PlotContainer

/-- `DEBOUNCE_DELAY_MS` constant from the source (line 33). -/
def DEBOUNCE_DELAY_MS : ℕ := 500

/-- `exportImageSetting.imageSize`: all three fields may be absent. -/
structure ImageSize where
  imageW : Option ℚ
  imageH : Option ℚ
  scale  : Option ℚ
deriving DecidableEq, Repr

/-- `mapFields.mapState` as read by the component: the fields the component
touches (`width`, `height`, `zoom`, `isSplit`) plus representative untouched
viewport fields that the `{...mapState, ...}` spread preserves. -/
structure MapState where
  width : ℚ
  height : ℚ
  zoom : ℚ
  isSplit : Bool
  latitude : ℚ
  longitude : ℚ
  pitch : ℚ
  bearing : ℚ
deriving DecidableEq, Repr

/-- Opaque map-style values: `styleOf` tags a caller-supplied style, `scaled`
is the (uninterpreted, injective) result of `scaleMapStyleByResolution`. -/
inductive Style where
  | styleOf : ℚ → Style
  | scaled : Style → ℚ → Style
deriving DecidableEq, Repr

/-- External pure utility `scaleMapStyleByResolution(style, scale)`
(utils/map-style-utils, not part of this fragment): modelled as a free
(uninterpreted) function on the opaque `Style` type. -/
def scaleMapStyleByResolution (s : Style) (c : ℚ) : Style := .scaled s c

/-- `mapFields.mapStyle`: the two pane styles the component rescales, plus a
representative untouched field preserved by the `{...mapStyle, ...}` spread. -/
structure MapStyle where
  topMapStyle : Style
  bottomMapStyle : Style
  styleType : ℚ
deriving DecidableEq, Repr

/-- The `mapLegend` object built at source lines 157-160. -/
structure MapLegend where
  shown : Bool
  active : Bool
deriving DecidableEq, Repr

/-- The `mapControls` override object built at source lines 155-161. -/
structure MapControls where
  mapLegend : MapLegend
deriving DecidableEq, Repr

/-- Caller-supplied `mapFields` object: the fields read by the component
(`mapState`, `mapStyle`), a `mapControls` field the caller may carry, and
representative further fields preserved by the `{...mapFields, ...}` spread. -/
structure MapFields where
  mapState : MapState
  mapStyle : MapStyle
  mapControls : MapControls
  id : ℚ
  mapboxApiAccessToken : ℚ
deriving DecidableEq, Repr

/-- One entry of `splitMaps`; `layers` is opaque data forwarded verbatim. -/
structure SplitPane where
  layers : ℚ
deriving DecidableEq, Repr

/-- The export settings destructured at source line 86. -/
structure ExportImageSetting where
  imageSize : ImageSize
  legend : Bool
  ratio : ℚ
  resolution : ℚ
deriving DecidableEq, Repr

/-- JS `v || d` for a possibly-undefined number `v`: `undefined` and `0` are
falsy, every other number is itself. -/
def jsOr (v : Option ℚ) (d : ℚ) : ℚ :=
  match v with
  | some x => if x = 0 then d else x
  | none => d

/-- Derived `Size` object. -/
structure Size where
  width : ℚ
  height : ℚ
deriving DecidableEq, Repr

/-- `size` memo, source lines 90-96:
`{width: imageSize.imageW || 1, height: imageSize.imageH || 1}`. -/
def size (isz : ImageSize) : Size :=
  { width := jsOr isz.imageW 1, height := jsOr isz.imageH 1 }

/-- Modelled from the spec: `getScaleFromImageSize(targetW, targetH, currentW,
currentH)` lives in `utils/export-utils`, which is not part of this fragment.
The spec describes it as a "pure function returning a numeric ratio" — the
ratio of requested image size to current viewport size — so it is modelled as
the ratio that fits both dimensions. -/
def getScaleFromImageSize (targetW targetH currentW currentH : ℚ) : ℚ :=
  min (targetW / currentW) (targetH / currentH)

/-- The `tmpScale` intermediate of source lines 103-108. When `imageW` or
`imageH` is absent, JS arithmetic yields `NaN` (modelled `none`), for which
the `tmpScale > 0` guard of line 110 is false. -/
def tmpScale (isz : ImageSize) (ms : MapState) : Option ℚ :=
  match isz.imageW, isz.imageH with
  | some w, some h =>
      some (getScaleFromImageSize w h (ms.width * (if ms.isSplit then 2 else 1)) ms.height)
  | _, _ => none

/-- The value returned when control reaches line 110:
`tmpScale > 0 ? tmpScale : 1`. -/
def scaleFallback (isz : ImageSize) (ms : MapState) : ℚ :=
  match tmpScale isz ms with
  | some t => if 0 < t then t else 1
  | none => 1

/-- `scale` memo, source lines 98-111: an explicit truthy `imageSize.scale` is
returned unchanged; otherwise the derived value guarded at zero. -/
def scale (isz : ImageSize) (ms : MapState) : ℚ :=
  match isz.scale with
  | some v => if v = 0 then scaleFallback isz ms else v
  | none => scaleFallback isz ms

/-- A notification descriptor; `exportImageErrorNote` models the object built
by `exportImageError({err})` from utils/notifications-utils. -/
inductive Notification where
  | exportImageErrorNote : ℚ → Notification
deriving DecidableEq, Repr

/-- External helper `exportImageError({err})` wrapping the error. -/
def exportImageErrorOf (err : ℚ) : Notification := .exportImageErrorNote err

/-- One invocation of a caller-supplied lifecycle callback. -/
inductive CallbackCall where
  | setExportingImage : CallbackCall
  | setExportImageDataUri : ℚ → CallbackCall
  | setExportImageError : ℚ → CallbackCall
  | addNotification : Notification → CallbackCall
deriving DecidableEq, Repr

/-- `retrieveNewScreenShot`, source lines 115-125, as the trace of callback
invocations it performs, given whether `plottingAreaRef.current` is attached
and the eventual settlement of the `convertToPng` promise
(`.ok data` = resolved, `.error err` = rejected). -/
def retrieveNewScreenShot (refAttached : Bool) (result : Except ℚ ℚ) :
    List CallbackCall :=
  if refAttached then
    CallbackCall.setExportingImage ::
      (match result with
       | .ok data => [.setExportImageDataUri data]
       | .error err =>
           [.setExportImageError err, .addNotification (exportImageErrorOf err)])
  else []

/-- `isSplit` memo, source line 88: `splitMaps && splitMaps.length > 1`
(`splitMaps` absent is falsy). -/
def isSplit (splitMaps : Option (List SplitPane)) : Bool :=
  match splitMaps with
  | some l => decide (1 < l.length)
  | none => false

/-- The props object built by the `mapProps` memo (source lines 139-168),
restricted to the data the spread produces.  `MapComponent`, `onMapRender` and
`deckGlProps` are component-constant function/class values and are represented
by the constant `isExport`-style marker only where a claim needs them. -/
structure MapProps where
  mapState : MapState
  mapStyle : MapStyle
  mapControls : MapControls
  id : ℚ
  mapboxApiAccessToken : ℚ
  isExport : Bool
deriving DecidableEq, Repr

/-- `mapProps` memo, source lines 139-168.  `jsLog2` is the embedding of the
JS expression `Math.log2(·) || 0` (an external numeric routine, passed as a
parameter); `split` is the component-level `isSplit` value. -/
def mapProps (jsLog2 : ℚ → ℚ) (mf : MapFields) (st : ExportImageSetting)
    (split : Bool) : MapProps :=
  let sz := size st.imageSize
  let sc := scale st.imageSize mf.mapState
  { mapState :=
      { mf.mapState with
        width := sz.width / (if split then 2 else 1)
        height := sz.height
        zoom := mf.mapState.zoom + jsLog2 sc }
    mapStyle :=
      { mf.mapStyle with
        bottomMapStyle := scaleMapStyleByResolution mf.mapStyle.bottomMapStyle sc
        topMapStyle := scaleMapStyleByResolution mf.mapStyle.topMapStyle sc }
    mapControls := { mapLegend := { shown := st.legend, active := true } }
    id := mf.id
    mapboxApiAccessToken := mf.mapboxApiAccessToken
    isExport := true }

/-- One instantiated `<MapContainer>` element: its `index` prop, the spread
`mapProps`, and the `mapLayers` override (absent when not split). -/
structure MapContainerInst where
  index : ℕ
  props : MapProps
  mapLayers : Option ℚ
deriving DecidableEq, Repr

/-- `splitMaps.map((settings, index) => ...)` of source lines 174-181. -/
def splitInstances (props : MapProps) : ℕ → List SplitPane → List MapContainerInst
  | _, [] => []
  | i, p :: rest =>
      { index := i, props := props, mapLayers := some p.layers }
        :: splitInstances props (i + 1) rest

/-- `mapContainers` memo, source lines 170-183: a single instance when not
split, one instance per `splitMaps` entry otherwise. -/
def mapContainers (splitMaps : Option (List SplitPane)) (props : MapProps) :
    List MapContainerInst :=
  if isSplit splitMaps then
    match splitMaps with
    | some l => splitInstances props 0 l
    | none => []
  else [{ index := 0, props := props, mapLayers := none }]

/-- A render-completion signal: arrival time in ms and the reported map
instance, of which only the `isStyledLoaded()` predicate is consulted
(source line 130). -/
structure Signal where
  time : ℕ
  styledLoaded : Bool
deriving DecidableEq, Repr

/-- The body of the debounced `onMapRender` callback (source lines 129-133):
number of `retrieveNewScreenShot` invocations it performs for the reported
map instance. -/
def renderCallbackAttempts (styledLoaded : Bool) : ℕ :=
  if styledLoaded then 1 else 0

/-- Trailing-edge debounce (lodash.debounce, source line 127) over a sequence
of calls at strictly increasing times: a call is followed by a timer firing
`delay` ms later unless a further call arrives strictly within the window, in
which case it is superseded; each firing runs the wrapped callback with the
latest call's argument.  Returns the list of (fire time, argument) pairs. -/
def debounceFires (delay : ℕ) : List Signal → List (ℕ × Bool)
  | [] => []
  | [s] => [(s.time + delay, s.styledLoaded)]
  | s :: s2 :: rest =>
      if s.time + delay ≤ s2.time then
        (s.time + delay, s.styledLoaded) :: debounceFires delay (s2 :: rest)
      else debounceFires delay (s2 :: rest)

/-- Total `retrieveNewScreenShot` invocations produced by a signal sequence
through the debounced `onMapRender`. -/
def totalCaptureAttempts (delay : ℕ) (sigs : List Signal) : ℕ :=
  ((debounceFires delay sigs).map (fun f => renderCallbackAttempts f.2)).sum

/-- The dependency array `[ratio, resolution, legend]` of the re-capture
effect, source line 191. -/
structure EffectDeps where
  ratio : ℚ
  resolution : ℚ
  legend : Bool
deriving DecidableEq, Repr

/-- React re-runs an effect on a re-render exactly when some entry of its
dependency array differs from the previous render's. -/
def depsChanged (prev cur : EffectDeps) : Bool :=
  decide (prev.ratio ≠ cur.ratio) || decide (prev.resolution ≠ cur.resolution)
    || decide (prev.legend ≠ cur.legend)

/-- Number of `retrieveNewScreenShot` invocations the effect at source lines
189-191 performs on a re-render, given previous and current dependencies. -/
def effectCaptureRuns (prev cur : EffectDeps) : ℕ :=
  if depsChanged prev cur then 1 else 0

/-! Concrete fixtures used by witnesses and counterexamples. -/

def msA : MapState :=
  { width := 1000, height := 1000, zoom := 10, isSplit := false,
    latitude := 37, longitude := -122, pitch := 0, bearing := 0 }

def styA : MapStyle :=
  { topMapStyle := .styleOf 1, bottomMapStyle := .styleOf 2, styleType := 5 }

def mfA : MapFields :=
  { mapState := msA, mapStyle := styA,
    mapControls := { mapLegend := { shown := false, active := false } },
    id := 7, mapboxApiAccessToken := 3 }

def stA : ExportImageSetting :=
  { imageSize := { imageW := some 800, imageH := some 600, scale := none },
    legend := true, ratio := 4 / 3, resolution := 1 }

def propsA : MapProps := mapProps (fun _ => 0) mfA stA false

/-! Claim theorems. -/

/-- C5: for `imageW`/`imageH` values `≥ 1` the derived `Size` is exactly
`{imageW, imageH}`; a missing or zero component defaults to `1`. -/
theorem size_spec (isz : ImageSize) :
    (∀ w, isz.imageW = some w → 1 ≤ w → (size isz).width = w) ∧
    (∀ h, isz.imageH = some h → 1 ≤ h → (size isz).height = h) ∧
    ((isz.imageW = none ∨ isz.imageW = some 0) → (size isz).width = 1) ∧
    ((isz.imageH = none ∨ isz.imageH = some 0) → (size isz).height = 1) := by
  refine ⟨?_, ?_, ?_, ?_⟩
  · intro w hw h1
    simp [size, jsOr, hw]
    intro h0
    exact absurd (h0 ▸ h1) (by norm_num)
  · intro h hh h1
    simp [size, jsOr, hh]
    intro h0
    exact absurd (h0 ▸ h1) (by norm_num)
  · rintro (h | h) <;> simp [size, jsOr, h]
  · rintro (h | h) <;> simp [size, jsOr, h]

/-- C5 witness: `imageW = 800`, `imageH = 0` yields `Size = {800, 1}`. -/
theorem size_spec_witness :
    (size ⟨some 800, some 0, none⟩).width = 800 ∧
    (size ⟨some 800, some 0, none⟩).height = 1 :=
  ⟨(size_spec ⟨some 800, some 0, none⟩).1 800 rfl (by norm_num),
   (size_spec ⟨some 800, some 0, none⟩).2.2.2 (Or.inr rfl)⟩

/-- C9: when the plotting-area ref is not attached, a capture trigger performs
no action at all: the callback trace of `retrieveNewScreenShot` is empty, so
neither `setExportingImage` nor any success/error/notification callback is
invoked, whatever the would-be capture result. -/
theorem retrieveNewScreenShot_ref_detached (result : Except ℚ ℚ) :
    retrieveNewScreenShot false result = [] := rfl

/-- C3: a failing capture attempt calls `setExportImageError` and the notifier
exactly once each with the same error and never calls
`setExportImageDataUri`; a succeeding one calls `setExportImageDataUri`
exactly once with the returned data and calls neither `setExportImageError`
nor the notifier. -/
theorem capture_result_callbacks (result : Except ℚ ℚ) :
    (∀ err, result = .error err →
      ((retrieveNewScreenShot true result).count (.setExportImageError err) = 1 ∧
       (retrieveNewScreenShot true result).count
          (.addNotification (exportImageErrorOf err)) = 1 ∧
       ∀ d, (retrieveNewScreenShot true result).count (.setExportImageDataUri d) = 0)) ∧
    (∀ data, result = .ok data →
      ((retrieveNewScreenShot true result).count (.setExportImageDataUri data) = 1 ∧
       (∀ e, (retrieveNewScreenShot true result).count (.setExportImageError e) = 0) ∧
       (∀ n, (retrieveNewScreenShot true result).count (.addNotification n) = 0))) := by
  constructor
  · rintro err rfl
    refine ⟨?_, ?_, fun d => ?_⟩ <;>
      simp [retrieveNewScreenShot, exportImageErrorOf, List.count_cons]
  · rintro data rfl
    refine ⟨?_, fun e => ?_, fun n => ?_⟩ <;>
      simp [retrieveNewScreenShot, List.count_cons]

/-- C3 witness: concrete failing and succeeding capture attempts. -/
theorem capture_result_callbacks_witness :
    (retrieveNewScreenShot true (.error 5)).count (.setExportImageError 5) = 1 ∧
    (retrieveNewScreenShot true (.ok 7)).count (.setExportImageDataUri 7) = 1 :=
  ⟨((capture_result_callbacks (.error 5)).1 5 rfl).1,
   ((capture_result_callbacks (.ok 7)).2 7 rfl).1⟩

/-- C7: the per-pane props override the viewport width to `Size.width`
(halved when split), the height to `Size.height`, add `log2(Scale)` (the JS
expression `Math.log2(scale) || 0`, embedded as `jsLog2`) to the incoming
zoom, rescale both pane styles with `scaleMapStyleByResolution` at `Scale`,
and set legend visibility from the `legend` setting. -/
theorem mapProps_overrides (jsLog2 : ℚ → ℚ) (mf : MapFields)
    (st : ExportImageSetting) (split : Bool) :
    (mapProps jsLog2 mf st split).mapState.width
        = (size st.imageSize).width / (if split then 2 else 1) ∧
    (mapProps jsLog2 mf st split).mapState.height = (size st.imageSize).height ∧
    (mapProps jsLog2 mf st split).mapState.zoom
        = mf.mapState.zoom + jsLog2 (scale st.imageSize mf.mapState) ∧
    (mapProps jsLog2 mf st split).mapStyle.topMapStyle
        = scaleMapStyleByResolution mf.mapStyle.topMapStyle
            (scale st.imageSize mf.mapState) ∧
    (mapProps jsLog2 mf st split).mapStyle.bottomMapStyle
        = scaleMapStyleByResolution mf.mapStyle.bottomMapStyle
            (scale st.imageSize mf.mapState) ∧
    (mapProps jsLog2 mf st split).mapControls.mapLegend.shown = st.legend :=
  ⟨rfl, rfl, rfl, rfl, rfl, rfl⟩

/-- C10 counterexample: `mapProps` also overwrites the caller-supplied
`mapControls` field of `mapFields` (with the legend object), so not every
field other than `mapState` and `mapStyle` is preserved: with
`mapFields.mapControls = {mapLegend: {show: false, active: false}}` and
`legend = true`, the props carry a different `mapControls`. -/
theorem mapProps_mapControls_not_preserved :
    (mapProps (fun _ => 0) mfA stA false).mapControls ≠ mfA.mapControls := by
  decide

/-- C10 (amended): the props preserve every field of `mapFields` other than
`mapState`, `mapStyle`, `mapControls` (and the component-injected
`MapComponent`/`onMapRender`/`isExport`/`deckGlProps` keys); `mapControls` is
replaced by the legend-override object; and inside the overridden `mapState`
every field other than `width`, `height` and `zoom` is unchanged. -/
theorem mapProps_preserves_other_fields (jsLog2 : ℚ → ℚ) (mf : MapFields)
    (st : ExportImageSetting) (split : Bool) :
    (mapProps jsLog2 mf st split).id = mf.id ∧
    (mapProps jsLog2 mf st split).mapboxApiAccessToken
        = mf.mapboxApiAccessToken ∧
    (mapProps jsLog2 mf st split).mapState.isSplit = mf.mapState.isSplit ∧
    (mapProps jsLog2 mf st split).mapState.latitude = mf.mapState.latitude ∧
    (mapProps jsLog2 mf st split).mapState.longitude = mf.mapState.longitude ∧
    (mapProps jsLog2 mf st split).mapState.pitch = mf.mapState.pitch ∧
    (mapProps jsLog2 mf st split).mapState.bearing = mf.mapState.bearing ∧
    (mapProps jsLog2 mf st split).mapControls
        = { mapLegend := { shown := st.legend, active := true } } :=
  ⟨rfl, rfl, rfl, rfl, rfl, rfl, rfl, rfl⟩

theorem splitInstances_length (props : MapProps) (i : ℕ) (l : List SplitPane) :
    (splitInstances props i l).length = l.length := by
  induction l generalizing i with
  | nil => rfl
  | cons p rest ih => simp [splitInstances, ih]

theorem splitInstances_map_layers (props : MapProps) (i : ℕ)
    (l : List SplitPane) :
    (splitInstances props i l).map MapContainerInst.mapLayers
      = l.map (fun p => some p.layers) := by
  induction l generalizing i with
  | nil => rfl
  | cons p rest ih => simp [splitInstances, ih]

theorem splitInstances_map_index (props : MapProps) (i : ℕ)
    (l : List SplitPane) :
    (splitInstances props i l).map MapContainerInst.index
      = (List.range l.length).map (· + i) := by
  induction l generalizing i with
  | nil => rfl
  | cons p rest ih =>
    simp [splitInstances, ih, List.range_succ_eq_map, List.map_map]
    omega

/-- C2: with `splitMaps` absent or of length `≤ 1` exactly one map-view
instance is created (with no `mapLayers` override); with `splitMaps` of
length `N > 1` exactly `N` instances are created, the `i`-th carrying index
`i` and `mapLayers = splitMaps[i].layers`. -/
theorem mapContainers_spec (sm : Option (List SplitPane)) (props : MapProps) :
    ((∀ l, sm = some l → l.length ≤ 1) →
        mapContainers sm props = [{ index := 0, props := props, mapLayers := none }]) ∧
    (∀ l, sm = some l → 1 < l.length →
        ((mapContainers sm props).length = l.length ∧
         (mapContainers sm props).map MapContainerInst.mapLayers
            = l.map (fun p => some p.layers) ∧
         (mapContainers sm props).map MapContainerInst.index
            = List.range l.length)) := by
  constructor
  · intro hshort
    cases sm with
    | none => rfl
    | some l =>
      have h1 : ¬ (1 < l.length) := by
        have := hshort l rfl
        omega
      simp [mapContainers, isSplit, h1]
  · rintro l rfl hlen
    have hs : isSplit (some l) = true := by simp [isSplit, hlen]
    simp only [mapContainers, hs, if_pos rfl]
    refine ⟨splitInstances_length props 0 l, splitInstances_map_layers props 0 l, ?_⟩
    simpa using splitInstances_map_index props 0 l

/-- C2 witness: one-entry `splitMaps` yields a single non-split instance;
two entries yield two instances with their own layers. -/
theorem mapContainers_spec_witness :
    mapContainers (some [⟨11⟩]) propsA
        = [{ index := 0, props := propsA, mapLayers := none }] ∧
    (mapContainers (some [⟨11⟩, ⟨22⟩]) propsA).map MapContainerInst.mapLayers
        = [some 11, some 22] :=
  ⟨(mapContainers_spec (some [⟨11⟩]) propsA).1
      (fun l hl => by cases hl; simp),
   by
    have h := ((mapContainers_spec (some [⟨11⟩, ⟨22⟩]) propsA).2
      [⟨11⟩, ⟨22⟩] rfl (by norm_num)).2.1
    simpa using h⟩

/-- C8: after the initial mount, a re-render in which any of the `ratio`,
`resolution` or `legend` settings changed runs the re-capture effect exactly
once, i.e. triggers exactly one new `retrieveNewScreenShot` call. -/
theorem effect_retriggers_on_setting_change (prev cur : EffectDeps)
    (h : prev.ratio ≠ cur.ratio ∨ prev.resolution ≠ cur.resolution ∨
          prev.legend ≠ cur.legend) :
    effectCaptureRuns prev cur = 1 := by
  rcases h with h | h | h <;> simp [effectCaptureRuns, depsChanged, h]

/-- C8 witness: changing `legend` from false to true re-triggers exactly one
capture cycle. -/
theorem effect_retriggers_witness :
    effectCaptureRuns ⟨4 / 3, 1, false⟩ ⟨4 / 3, 1, true⟩ = 1 :=
  effect_retriggers_on_setting_change ⟨4 / 3, 1, false⟩ ⟨4 / 3, 1, true⟩
    (Or.inr (Or.inr (by decide)))

theorem sum_attempts_eq_loaded_count (L : List (ℕ × Bool)) :
    (L.map (fun f => renderCallbackAttempts f.2)).sum
      = (L.filter (fun f => f.2)).length := by
  simp only [renderCallbackAttempts]
  induction L with
  | nil => rfl
  | cons f rest ih =>
    cases hb : f.2 <;> simp [List.filter_cons, hb, ih, Nat.add_comm]

/-- C6: a capture attempt is triggered only when the reported map instance's
`isStyledLoaded()` predicate is true: the debounced callback body performs no
`retrieveNewScreenShot` call for a not-yet-loaded report, and over any signal
sequence the total number of capture attempts equals the number of debounce
firings whose reported map is styles-loaded. -/
theorem capture_only_when_styles_loaded :
    (∀ styledLoaded : Bool, styledLoaded = false →
        renderCallbackAttempts styledLoaded = 0) ∧
    (∀ delay (sigs : List Signal),
        totalCaptureAttempts delay sigs
          = ((debounceFires delay sigs).filter (fun f => f.2)).length) :=
  ⟨fun _ h => by simp [renderCallbackAttempts, h],
   fun delay sigs => sum_attempts_eq_loaded_count (debounceFires delay sigs)⟩

/-- C6 witness: a single not-yet-loaded signal produces zero capture
attempts. -/
theorem capture_only_when_styles_loaded_witness :
    renderCallbackAttempts false = 0 ∧
    totalCaptureAttempts DEBOUNCE_DELAY_MS [⟨0, false⟩]
      = ((debounceFires DEBOUNCE_DELAY_MS [⟨0, false⟩]).filter (fun f => f.2)).length :=
  ⟨capture_only_when_styles_loaded.1 false rfl,
   capture_only_when_styles_loaded.2 DEBOUNCE_DELAY_MS [⟨0, false⟩]⟩

theorem debounceFires_burst (delay : ℕ) (sigs : List Signal) (hne : sigs ≠ [])
    (hburst : sigs.Chain'
      (fun a b => a.time < b.time ∧ b.time < a.time + delay)) :
    debounceFires delay sigs
      = [((sigs.getLast hne).time + delay, (sigs.getLast hne).styledLoaded)] := by
  induction sigs with
  | nil => exact absurd rfl hne
  | cons s rest ih =>
    cases rest with
    | nil => rfl
    | cons s2 rest2 =>
      have h12 := List.chain'_cons.mp hburst
      have hlt : ¬ (s.time + delay ≤ s2.time) := by omega
      have hne2 : (s2 :: rest2) ≠ ([] : List Signal) := by simp
      rw [show debounceFires delay (s :: s2 :: rest2)
            = debounceFires delay (s2 :: rest2) from by
          simp [debounceFires, hlt],
        ih hne2 h12.2, List.getLast_cons hne2]

/-- C4: render-completion signals at strictly increasing times, each arriving
within `DEBOUNCE_DELAY_MS` of its predecessor, are coalesced: the debounced
callback fires exactly once, `DEBOUNCE_DELAY_MS` after the last signal and
with its reported map, and (when that last report is styles-loaded) exactly
one capture attempt results. -/
theorem debounce_coalesces_to_one (sigs : List Signal) (hne : sigs ≠ [])
    (hburst : sigs.Chain'
      (fun a b => a.time < b.time ∧ b.time < a.time + DEBOUNCE_DELAY_MS)) :
    debounceFires DEBOUNCE_DELAY_MS sigs
      = [((sigs.getLast hne).time + DEBOUNCE_DELAY_MS,
          (sigs.getLast hne).styledLoaded)] ∧
    ((sigs.getLast hne).styledLoaded = true →
      totalCaptureAttempts DEBOUNCE_DELAY_MS sigs = 1) := by
  have h := debounceFires_burst DEBOUNCE_DELAY_MS sigs hne hburst
  refine ⟨h, fun hl => ?_⟩
  simp [totalCaptureAttempts, h, renderCallbackAttempts, hl]

/-- Ten render-completion signals spread over 100 ms. -/
def burstSigs : List Signal :=
  [⟨0, true⟩, ⟨11, true⟩, ⟨22, true⟩, ⟨33, true⟩, ⟨44, true⟩,
   ⟨55, true⟩, ⟨66, true⟩, ⟨77, true⟩, ⟨88, true⟩, ⟨99, true⟩]

/-- C4 witness: ten signals within 100 ms yield a single firing 500 ms after
the last signal and exactly one capture attempt. -/
theorem debounce_coalesces_witness :
    totalCaptureAttempts DEBOUNCE_DELAY_MS burstSigs = 1 :=
  (debounce_coalesces_to_one burstSigs (by decide)
    (by
      simp only [burstSigs, List.chain'_cons, List.chain'_singleton,
        DEBOUNCE_DELAY_MS]
      norm_num)).2 rfl

/-- Export size of 500×500 against the 1000×1000 viewport of `msA`. -/
def iszHalf : ImageSize := { imageW := some 500, imageH := some 500, scale := none }

/-- C1 counterexample: with no explicit scale, a 500×500 request against a
1000×1000 non-split viewport makes `getScaleFromImageSize` return `1/2`; the
guard at source line 110 only replaces non-positive values by 1, so the
derived `Scale` is the fractional `1/2`, not 1. -/
theorem scale_below_one :
    scale iszHalf msA = 1 / 2 ∧ ¬ (1 ≤ scale iszHalf msA) := by
  constructor <;>
    norm_num [scale, scaleFallback, tmpScale, getScaleFromImageSize, iszHalf, msA]

/-- C1 (amended): an explicit truthy (nonzero) `imageSize.scale` is used
unchanged; otherwise the value derived from `getScaleFromImageSize` (with the
current width doubled in split view) is used whenever it is positive —
including fractional values below 1 — and `Scale` falls back to 1 exactly
when the derived value is non-positive or not computable (missing
dimensions); the derived branch therefore always yields a positive, but not
necessarily ≥ 1, `Scale`. -/
theorem scale_amended (isz : ImageSize) (ms : MapState) :
    (∀ v, isz.scale = some v → v ≠ 0 → scale isz ms = v) ∧
    ((isz.scale = none ∨ isz.scale = some 0) →
      (0 < scale isz ms ∧
       (∀ t, tmpScale isz ms = some t → scale isz ms = if 0 < t then t else 1) ∧
       (tmpScale isz ms = none → scale isz ms = 1))) := by
  constructor
  · intro v hv hv0
    simp [scale, hv, hv0]
  · intro hfall
    have hsc : scale isz ms = scaleFallback isz ms := by
      rcases hfall with h | h <;> simp [scale, h]
    refine ⟨?_, ?_, ?_⟩
    · rw [hsc]
      unfold scaleFallback
      cases htmp : tmpScale isz ms with
      | none => norm_num
      | some t =>
        by_cases ht : 0 < t <;> simp [ht]
    · intro t htmp
      rw [hsc]
      unfold scaleFallback
      rw [htmp]
    · intro htmp
      rw [hsc]
      unfold scaleFallback
      rw [htmp]

/-- C1 witness: the derived branch at the concrete 500×500 request is
positive and equals the positive computed ratio; an explicit scale of 3 is
used unchanged. -/
theorem scale_amended_witness :
    0 < scale iszHalf msA ∧
    scale { imageW := some 500, imageH := some 500, scale := some 3 } msA = 3 :=
  ⟨((scale_amended iszHalf msA).2 (Or.inl rfl)).1,
   (scale_amended { imageW := some 500, imageH := some 500, scale := some 3 } msA).1
      3 rfl (by norm_num)⟩

end PlotContainer
